import Mathlib

/-!
Verification of the `memory-feast-online` server core (Go) against its
natural-language specification.  The Go sources under `internal/game` are
shallowly embedded: Go `int` becomes `Int`, pointers to players/connections
become `Option`, in-place mutation becomes explicit state passing, and a Go
nil-pointer dereference (a panic) is modelled by an `Option`-returning
function yielding `none`.  Random identifiers (room id, invite code) carry no
logic and are omitted from the `Room` record.
-/

/-- Game phase, from `internal/game/state.go` (`Phase` string constants). -/
inductive Phase where
  | waiting
  | placement
  | matching
  | addToken
  | finished
deriving DecidableEq, Repr

/-- One plate of the board, from `state.go` (`Plate`). -/
structure Plate where
  tokens : Int
  covered : Bool
  hasTokens : Bool
deriving DecidableEq, Repr

/-- The game-state record, from `state.go` (`GameState`). -/
structure GameState where
  phase : Phase
  currentTurn : Int
  placementRound : Int
  maxRound : Int
  timeLeft : Int
  plates : List Plate
  selectedPlates : List Int
  matchedPlates : List Int
  lastActionPlate : Option Int
deriving DecidableEq, Repr

/-- Read a plate at a Go `int` index; only used at in-range indices. -/
def plateAt (ps : List Plate) (i : Int) : Plate :=
  ps.getD i.toNat { tokens := 0, covered := true, hasTokens := false }

/-- `NewGameState` from `state.go`: all plates start empty and covered,
`maxRound` is `plateCount/2 - 1` floored at 1. -/
def NewGameState (plateCount : Int) : GameState :=
  let maxRound0 := plateCount / 2 - 1
  let maxRound := if maxRound0 < 1 then 1 else maxRound0
  { phase := Phase.waiting
    currentTurn := 0
    placementRound := 1
    maxRound := maxRound
    timeLeft := 60
    plates := List.replicate plateCount.toNat { tokens := 0, covered := true, hasTokens := false }
    selectedPlates := []
    matchedPlates := []
    lastActionPlate := none }

/-- `(*GameState).PlaceToken` from `state.go`: placement phase only, in-range
index only, plate must not already hold tokens. -/
def PlaceToken (gs : GameState) (index : Int) : Bool × GameState :=
  if gs.phase ≠ Phase.placement then (false, gs)
  else if index < 0 ∨ (gs.plates.length : Int) ≤ index then (false, gs)
  else if (plateAt gs.plates index).hasTokens then (false, gs)
  else
    (true, { gs with
      plates := gs.plates.set index.toNat
        { plateAt gs.plates index with
            tokens := gs.placementRound, hasTokens := true, covered := true }
      lastActionPlate := some index })

/-- `(*GameState).SelectPlate` from `state.go`: matching phase only, in-range
index only; removes an already-selected index, else appends when fewer than
two are selected. -/
def SelectPlate (gs : GameState) (index : Int) : Bool × GameState :=
  if gs.phase ≠ Phase.matching then (false, gs)
  else if index < 0 ∨ (gs.plates.length : Int) ≤ index then (false, gs)
  else if index ∈ gs.selectedPlates then
    (true, { gs with selectedPlates := gs.selectedPlates.erase index })
  else if 2 ≤ gs.selectedPlates.length then (false, gs)
  else (true, { gs with selectedPlates := gs.selectedPlates ++ [index] })

/-- `(*GameState).ConfirmMatch` from `state.go`: requires exactly two
selected plates, uncovers both, reports whether their token counts (read
before uncovering) are equal, together with both counts. -/
def ConfirmMatch (gs : GameState) : (Bool × Int × Int) × GameState :=
  if gs.selectedPlates.length ≠ 2 then ((false, 0, 0), gs)
  else
    let idx1 := gs.selectedPlates.getD 0 0
    let idx2 := gs.selectedPlates.getD 1 0
    let plate1 := plateAt gs.plates idx1
    let plate2 := plateAt gs.plates idx2
    let ps1 := gs.plates.set idx1.toNat { plate1 with covered := false }
    let ps2 := ps1.set idx2.toNat { plateAt ps1 idx2 with covered := false }
    ((plate1.tokens == plate2.tokens, plate1.tokens, plate2.tokens), { gs with plates := ps2 })

/-- `(*GameState).AddToken` from `state.go`: add-token phase only, index must
be a member of `matchedPlates`; increments that plate's token count.  The
matched set is left intact. -/
def AddToken (gs : GameState) (index : Int) : Bool × GameState :=
  if gs.phase ≠ Phase.addToken then (false, gs)
  else if index ∉ gs.matchedPlates then (false, gs)
  else
    (true, { gs with
      plates := gs.plates.set index.toNat
        { plateAt gs.plates index with tokens := (plateAt gs.plates index).tokens + 1 }
      lastActionPlate := some index })

/-- A player, from `internal/game/player.go`.  The `*websocket.Conn` handle
is modelled by an `Option Nat` identity; `DisconnectedAt` by an optional
integer timestamp. -/
structure Player where
  id : String
  nickname : String
  sessionId : String
  tokens : Int
  conn : Option Nat
  disconnectedAt : Option Int
deriving DecidableEq, Repr

/-- `NewPlayer` from `player.go`: zero tokens, no disconnect stamp. -/
def NewPlayer (id nickname sessionId : String) (conn : Option Nat) : Player :=
  { id := id, nickname := nickname, sessionId := sessionId, tokens := 0,
    conn := conn, disconnectedAt := none }

/-- `(*Player).ClearConnectionIf` from `player.go`: compare-and-clear.  The
wall-clock time written into `disconnectedAt` is passed explicitly. -/
def ClearConnectionIf (p : Player) (expected : Option Nat) (now : Int) : Bool × Player :=
  if p.conn ≠ expected then (false, p)
  else (true, { p with conn := none, disconnectedAt := some now })

/-- A room, from `internal/game/room.go`.  The two player slots are the two
`Option Player` fields; random `ID`/`Code` strings are omitted. -/
structure Room where
  players0 : Option Player
  players1 : Option Player
  plateCount : Int
  state : GameState
deriving DecidableEq, Repr

/-- `NewRoom` from `room.go`: clamp the plate count to at least 4 and at
most 20, then round an odd count up by one. -/
def NewRoom (plateCount : Int) : Room :=
  let p1 := if plateCount < 4 then 4 else plateCount
  let p2 := if 20 < p1 then 20 else p1
  let pc := if p2 % 2 ≠ 0 then p2 + 1 else p2
  { players0 := none, players1 := none, plateCount := pc, state := NewGameState pc }

/-- Go array access `r.Players[i]`: `none` for an empty slot, and out-of-range
indices (which would panic) also yield `none`. -/
def playerSlot (r : Room) (i : Int) : Option Player :=
  if i = 0 then r.players0 else if i = 1 then r.players1 else none

/-- Write back into a player slot (identity on out-of-range indices). -/
def setPlayerSlot (r : Room) (i : Int) (p : Player) : Room :=
  if i = 0 then { r with players0 := some p }
  else if i = 1 then { r with players1 := some p }
  else r

/-- `(*Room).HandleConfirmMatch` from `room.go`: guards on matching phase,
turn ownership and exactly two selections, then delegates to `ConfirmMatch`.
Result mirrors the Go return `(success, matched, plate1Tokens, plate2Tokens)`. -/
def HandleConfirmMatch (r : Room) (playerIndex : Int) : (Bool × Bool × Int × Int) × Room :=
  if r.state.phase ≠ Phase.matching then ((false, false, 0, 0), r)
  else if r.state.currentTurn ≠ playerIndex then ((false, false, 0, 0), r)
  else if r.state.selectedPlates.length ≠ 2 then ((false, false, 0, 0), r)
  else
    let res := ConfirmMatch r.state
    ((true, res.1.1, res.1.2.1, res.1.2.2), { r with state := res.2 })

/-- `(*Room).HandleAddToken` from `room.go`: guards on add-token phase and
turn, delegates to `AddToken`, then decrements the acting player's balance
and reports the new plate count and whether the balance reached zero.  The
unconditional `r.Players[playerIndex].Tokens--` dereference makes the whole
call `none` (a Go panic) when the slot is empty. -/
def HandleAddToken (r : Room) (playerIndex plateIndex : Int) :
    Option ((Bool × Int × Bool) × Room) :=
  if r.state.phase ≠ Phase.addToken then some ((false, 0, false), r)
  else if r.state.currentTurn ≠ playerIndex then some ((false, 0, false), r)
  else
    let res := AddToken r.state plateIndex
    if res.1 = false then some ((false, 0, false), r)
    else
      (playerSlot r playerIndex).map fun p =>
        let p2 : Player := { p with tokens := p.tokens - 1 }
        ((true, (plateAt res.2.plates plateIndex).tokens, decide (p2.tokens ≤ 0)),
         setPlayerSlot { r with state := res.2 } playerIndex p2)

/-- `(*Room).HandleMatchFail` from `room.go`: adds one penalty token to the
given player, with no phase or turn guard; `none` models the nil-pointer
panic on an empty slot. -/
def HandleMatchFail (r : Room) (playerIndex : Int) : Option Room :=
  (playerSlot r playerIndex).map fun p =>
    setPlayerSlot r playerIndex { p with tokens := p.tokens + 1 }

/-- `(*Room).HandleTimeout` from `room.go`: adds two penalty tokens to the
given player, with no phase or turn guard; `none` models the nil-pointer
panic on an empty slot. -/
def HandleTimeout (r : Room) (playerIndex : Int) : Option Room :=
  (playerSlot r playerIndex).map fun p =>
    setPlayerSlot r playerIndex { p with tokens := p.tokens + 2 }

/-- `(*Room).GetWinner` from `room.go`: reads `r.Players[0].Tokens` and
`r.Players[1].Tokens` unconditionally, so an empty slot is a nil-pointer
dereference, modelled as `none`.  With both players present: lower balance
wins, equal balances are a draw (`-1`). -/
def GetWinner (r : Room) : Option Int :=
  match r.players0, r.players1 with
  | some p0, some p1 =>
      some (if p0.tokens < p1.tokens then 0
            else if p1.tokens < p0.tokens then 1
            else -1)
  | _, _ => none

/-- A matchmaking queue ticket, from `internal/game/matchmaker.go`
(`QueueEntry`).  The connection hint is an `Option Nat` handle and
`JoinedAt` an integer timestamp. -/
structure QueueEntry where
  player : Player
  conn : Option Nat
  joinedAt : Int
  plateCount : Int
deriving DecidableEq, Repr

/-- The matchmaker, from `matchmaker.go`: the FIFO queue plus the injected
pairing callback (`onMatched`, nilable in Go, hence `Option`). -/
structure Matchmaker where
  queue : List QueueEntry
  onMatched : Option (QueueEntry → QueueEntry → Room)

/-- `QueueTimeout` from `matchmaker.go` (60 seconds, in seconds here). -/
def QueueTimeout : Int := 60

/-- Modelled from the spec: `ClampPlateCount` is called by `matchmaker.go`
and `cmd/server/main.go` and exercised by `TestClampPlateCount`, but its
definition is not among the provided sources.  Spec sections 6 and 8 fix it
as the monotone clamp to the legal range 4..20 with odd values rounding up
to even. -/
def ClampPlateCount (n : Int) : Int :=
  let a := if n < 4 then 4 else n
  let b := if 20 < a then 20 else a
  if b % 2 ≠ 0 then b + 1 else b

/-- The reconnect-while-queued scan inside `(*Matchmaker).JoinQueue`: find
the first entry with the caller's session id, update its connection and
player reference in place, and report its 1-indexed position. -/
def updateQueueEntry (player : Player) (conn : Option Nat) :
    List QueueEntry → Option (Nat × List QueueEntry)
  | [] => none
  | e :: es =>
    if e.player.sessionId = player.sessionId then
      some (1, { e with conn := conn, player := player } :: es)
    else
      match updateQueueEntry player conn es with
      | some (pos, es2) => some (pos + 1, e :: es2)
      | none => none

/-- `(*Matchmaker).JoinQueue` from `matchmaker.go`.  `now` stands for
`time.Now()`.  In-queue session: update in place, return 1-indexed position.
Else if the queue is non-empty the head is popped and, when the pairing
callback is present, paired with the new arrival (position 0 plus the
constructed room); with a nil callback Go falls through and appends.  Else
append and return the new 1-indexed position. -/
def JoinQueue (mm : Matchmaker) (player : Player) (conn : Option Nat)
    (plateCount now : Int) : (Int × Option Room) × Matchmaker :=
  match updateQueueEntry player conn mm.queue with
  | some (pos, q2) => ((Int.ofNat pos, none), { mm with queue := q2 })
  | none =>
    let entry : QueueEntry :=
      { player := player, conn := conn, joinedAt := now,
        plateCount := ClampPlateCount plateCount }
    match mm.queue, mm.onMatched with
    | opponent :: rest, some f =>
        ((0, some (f opponent entry)), { mm with queue := rest })
    | _ :: rest, none =>
        ((Int.ofNat (rest.length + 1), none), { mm with queue := rest ++ [entry] })
    | [], _ => ((1, none), { mm with queue := [entry] })

/-- `(*Matchmaker).cleanupTimedOut` from `matchmaker.go`: rebuild the queue
keeping exactly the entries strictly younger than `QueueTimeout`.  Nothing
else happens: the source matchmaker has no per-entry timeout callback. -/
def cleanupTimedOut (mm : Matchmaker) (now : Int) : Matchmaker :=
  { mm with queue := mm.queue.filter fun e => now - e.joinedAt < QueueTimeout }

/-- A bare player with a given token balance, as built in the source's own
tests (`&Player{Tokens: t}`). -/
def mkPlayerTokens (t : Int) : Player :=
  { id := "", nickname := "", sessionId := "", tokens := t,
    conn := none, disconnectedAt := none }

/-- C1 fixture: fresh room, both slots empty (`TestGetWinnerHandlesMissingPlayers`). -/
def roomC1Empty : Room := NewRoom 4

/-- C1 fixture: slot 0 empty, slot 1 holds a player with 3 tokens. -/
def roomC1OnlyP1 : Room := { NewRoom 4 with players1 := some (mkPlayerTokens 3) }

/-- C1 fixture: both present with balances 3 and 5. -/
def roomC1Both : Room :=
  { NewRoom 4 with players0 := some (mkPlayerTokens 3), players1 := some (mkPlayerTokens 5) }

/-- C1 fixture: both present with equal balances. -/
def roomC1Equal : Room :=
  { NewRoom 4 with players0 := some (mkPlayerTokens 4), players1 := some (mkPlayerTokens 4) }

/-- C2 fixture, mirroring `TestHandleConfirmMatchBlocksReentry`: matching
phase, player 0's turn, plates 0 and 1 selected and holding equal counts. -/
def roomC2 : Room :=
  let r := NewRoom 4
  { r with state := { r.state with
      phase := Phase.matching
      currentTurn := 0
      selectedPlates := [0, 1]
      plates := [{ tokens := 1, covered := true, hasTokens := false },
                 { tokens := 1, covered := true, hasTokens := false },
                 { tokens := 0, covered := true, hasTokens := false },
                 { tokens := 0, covered := true, hasTokens := false }] } }

/-- C3 fixture, mirroring `TestHandleAddToken_BlocksDoubleAdd`: add-token
phase, player 0's turn, plates 0 and 1 matched, both players at 5 tokens. -/
def roomC3 : Room :=
  let r := NewRoom 4
  { r with
      players0 := some (mkPlayerTokens 5)
      players1 := some (mkPlayerTokens 5)
      state := { r.state with
        phase := Phase.addToken
        currentTurn := 0
        matchedPlates := [0, 1] } }

/-- C5 fixture: entry 61 seconds old at sweep time 100. -/
def entryC5Old : QueueEntry :=
  { player := { mkPlayerTokens 0 with sessionId := "session-timeout" },
    conn := none, joinedAt := 39, plateCount := 20 }

/-- C5 fixture: entry 10 seconds old at sweep time 100. -/
def entryC5Young : QueueEntry :=
  { player := { mkPlayerTokens 0 with sessionId := "session-active" },
    conn := none, joinedAt := 90, plateCount := 20 }

/-- C5 fixture: matchmaker holding one timed-out and one fresh entry. -/
def mmC5 : Matchmaker := { queue := [entryC5Old, entryC5Young], onMatched := none }

/-- C4 fixture: an arriving player with session id distinct from the queue. -/
def playerC4 : Player := { mkPlayerTokens 0 with sessionId := "sA" }

/-- C4 fixture: the queue entry already waiting. -/
def entryC4 : QueueEntry :=
  { player := { mkPlayerTokens 0 with sessionId := "sB" },
    conn := none, joinedAt := 0, plateCount := 20 }

/-- C4 fixture: a concrete injected pairing callback. -/
def pairRoomC4 : QueueEntry → QueueEntry → Room := fun _ _ => NewRoom 20

/-- C4 fixture: matchmaker with one waiting entry and the callback injected. -/
def mmC4 : Matchmaker := { queue := [entryC4], onMatched := some pairRoomC4 }

/-- Claim C1 (code defect): `GetWinner` is claimed to treat a missing player
as having effectively infinite tokens (one present player wins regardless of
balance, two empty slots give a draw), but the source dereferences both
player slots unconditionally, so any empty slot is a nil-pointer panic
(`none` here) instead of the claimed result; only the both-present
comparisons behave as claimed. -/
theorem GetWinner_nil_player_dereference :
    GetWinner roomC1Empty = none ∧
    GetWinner roomC1OnlyP1 = none ∧
    GetWinner roomC1Both = some 0 ∧
    GetWinner roomC1Equal = some (-1) :=
  ⟨rfl, rfl, rfl, rfl⟩

/-- Claim C2 (code defect): starting from a matching-phase room with two
equal plates selected — the setup of the source's own
`TestHandleConfirmMatchBlocksReentry` — a first `HandleConfirmMatch` is
accepted and, the phase still being Matching, a second call is accepted
again instead of being rejected. -/
theorem HandleConfirmMatch_double_accept :
    (HandleConfirmMatch roomC2 0).1.1 = true ∧
    (HandleConfirmMatch roomC2 0).2.state.phase = Phase.matching ∧
    (HandleConfirmMatch (HandleConfirmMatch roomC2 0).2 0).1.1 = true :=
  ⟨rfl, rfl, rfl⟩

/-- Claim C3 (code defect): starting from the add-token-phase room of the
source's own `TestHandleAddToken_BlocksDoubleAdd` (plates 0 and 1 matched),
a first `HandleAddToken` succeeds and a second call against the same
still-matched pair also succeeds instead of being rejected. -/
theorem HandleAddToken_double_add :
    (HandleAddToken roomC3 0 0).map (fun x => x.1.1) = some true ∧
    ((HandleAddToken roomC3 0 0).bind fun x => HandleAddToken x.2 0 1).map (fun x => x.1.1)
      = some true :=
  ⟨rfl, rfl⟩

/-- Claim C5 (code defect): the sweep evicts the entry older than
`QueueTimeout` and keeps the younger one, but it does so silently — the
source `Matchmaker` carries no per-entry timeout callback to invoke, against
the claim and the source's own `TestCleanupTimedOutRemovesEntryAndCallsCallback`. -/
theorem cleanupTimedOut_silent_eviction :
    (cleanupTimedOut mmC5 100).queue = [entryC5Young] :=
  rfl

/-- Claim C8: `ClearConnectionIf` returns true, nulls the stored connection
and stamps `disconnectedAt`, exactly when the expected handle equals the
currently stored one; otherwise it returns false and leaves the player
untouched. -/
theorem ClearConnectionIf_compare_and_clear (p : Player) (expected : Option Nat) (now : Int) :
    (p.conn = expected →
      ClearConnectionIf p expected now =
        (true, { p with conn := none, disconnectedAt := some now })) ∧
    (p.conn ≠ expected → ClearConnectionIf p expected now = (false, p)) := by
  constructor <;> intro h <;> simp [ClearConnectionIf, h]

/-- Witness for C8 at a concrete player: clearing with the stored handle
succeeds and a mismatched handle is a no-op. -/
theorem ClearConnectionIf_compare_and_clear_witness :
    ClearConnectionIf (NewPlayer "p1" "Alice" "s1" (some 7)) (some 7) 5 =
      (true, { NewPlayer "p1" "Alice" "s1" (some 7) with
                 conn := none, disconnectedAt := some 5 }) ∧
    ClearConnectionIf (NewPlayer "p1" "Alice" "s1" (some 7)) (some 8) 5 =
      (false, NewPlayer "p1" "Alice" "s1" (some 7)) :=
  ⟨(ClearConnectionIf_compare_and_clear (NewPlayer "p1" "Alice" "s1" (some 7)) (some 7) 5).1 rfl,
   (ClearConnectionIf_compare_and_clear (NewPlayer "p1" "Alice" "s1" (some 7)) (some 8) 5).2
     (by decide)⟩

/-- Claim C9: for a filled slot 0 or 1, and with no guard on phase or turn,
`HandleMatchFail` adds exactly one token and `HandleTimeout` exactly two to
that player's balance, and the resulting room differs from the input only in
that one player's token field (game state, the opponent slot and every other
player field are untouched, as the record updates show). -/
theorem HandleMatchFail_HandleTimeout_frame (r : Room) (p : Player) :
    (r.players0 = some p →
      HandleMatchFail r 0 = some { r with players0 := some { p with tokens := p.tokens + 1 } } ∧
      HandleTimeout r 0 = some { r with players0 := some { p with tokens := p.tokens + 2 } }) ∧
    (r.players1 = some p →
      HandleMatchFail r 1 = some { r with players1 := some { p with tokens := p.tokens + 1 } } ∧
      HandleTimeout r 1 = some { r with players1 := some { p with tokens := p.tokens + 2 } }) := by
  constructor <;> intro h <;>
    simp [HandleMatchFail, HandleTimeout, playerSlot, setPlayerSlot, h]

/-- Witness for C9 on a concrete two-player room in matching phase. -/
theorem HandleMatchFail_HandleTimeout_frame_witness :
    HandleMatchFail roomC1Both 0 =
      some { roomC1Both with players0 := some { mkPlayerTokens 3 with tokens := 3 + 1 } } ∧
    HandleTimeout roomC1Both 0 =
      some { roomC1Both with players0 := some { mkPlayerTokens 3 with tokens := 3 + 2 } } :=
  (HandleMatchFail_HandleTimeout_frame roomC1Both (mkPlayerTokens 3)).1 rfl

/-- Claim C10: for any game state and any index outside the plate range,
`PlaceToken` and `SelectPlate` both return false and leave the state
unchanged, so no out-of-bounds plate access happens through them. -/
theorem PlaceToken_SelectPlate_out_of_range (gs : GameState) (i : Int)
    (h : i < 0 ∨ (gs.plates.length : Int) ≤ i) :
    PlaceToken gs i = (false, gs) ∧ SelectPlate gs i = (false, gs) := by
  have hb : (i < 0 ∨ (gs.plates.length : Int) ≤ i) = True := eq_true h
  refine ⟨?_, ?_⟩
  · unfold PlaceToken
    simp only [hb, if_true, ite_self]
  · unfold SelectPlate
    simp only [hb, if_true, ite_self]

/-- Witness for C10 at a fresh 4-plate state and the out-of-range indices
-1 and 4 (the bounds probed by `TestCoverPlateReturnsFalseForInvalidIndex`). -/
theorem PlaceToken_SelectPlate_out_of_range_witness :
    (PlaceToken (NewGameState 4) (-1) = (false, NewGameState 4) ∧
      SelectPlate (NewGameState 4) (-1) = (false, NewGameState 4)) ∧
    (PlaceToken (NewGameState 4) 4 = (false, NewGameState 4) ∧
      SelectPlate (NewGameState 4) 4 = (false, NewGameState 4)) :=
  ⟨PlaceToken_SelectPlate_out_of_range (NewGameState 4) (-1) (by decide),
   PlaceToken_SelectPlate_out_of_range (NewGameState 4) 4 (by decide)⟩

/-- Claim C7: in the Matching phase (at an in-range index), `SelectPlate`
toggles membership — an already-selected index is removed and the call
succeeds, an unselected index is appended exactly when fewer than two are
selected, a third distinct index is rejected while two are selected, and
selecting the same index twice returns the state to exactly what it was. -/
theorem SelectPlate_toggle (gs : GameState) (i : Int)
    (hphase : gs.phase = Phase.matching) (h0 : 0 ≤ i) (hlen : i < (gs.plates.length : Int)) :
    (i ∈ gs.selectedPlates →
      SelectPlate gs i = (true, { gs with selectedPlates := gs.selectedPlates.erase i })) ∧
    (i ∉ gs.selectedPlates → gs.selectedPlates.length < 2 →
      SelectPlate gs i = (true, { gs with selectedPlates := gs.selectedPlates ++ [i] })) ∧
    (i ∉ gs.selectedPlates → 2 ≤ gs.selectedPlates.length →
      SelectPlate gs i = (false, gs)) ∧
    (i ∉ gs.selectedPlates → gs.selectedPlates.length < 2 →
      SelectPlate (SelectPlate gs i).2 i = (true, gs)) := by
  have hnb : ¬ (i < 0 ∨ (gs.plates.length : Int) ≤ i) := by
    rintro (hc | hc) <;> omega
  have hph : ¬ gs.phase ≠ Phase.matching := by simp [hphase]
  refine ⟨?_, ?_, ?_, ?_⟩
  · intro hmem
    unfold SelectPlate
    rw [if_neg hph, if_neg hnb, if_pos hmem]
  · intro hmem hlt
    unfold SelectPlate
    rw [if_neg hph, if_neg hnb, if_neg hmem,
      if_neg (by omega : ¬ 2 ≤ gs.selectedPlates.length)]
  · intro hmem hge
    unfold SelectPlate
    rw [if_neg hph, if_neg hnb, if_neg hmem, if_pos hge]
  · intro hmem hlt
    have h1 : SelectPlate gs i = (true, { gs with selectedPlates := gs.selectedPlates ++ [i] }) := by
      unfold SelectPlate
      rw [if_neg hph, if_neg hnb, if_neg hmem,
        if_neg (by omega : ¬ 2 ≤ gs.selectedPlates.length)]
    rw [h1]
    show SelectPlate { gs with selectedPlates := gs.selectedPlates ++ [i] } i = (true, gs)
    have hph2 : ¬ ({ gs with selectedPlates := gs.selectedPlates ++ [i] } : GameState).phase
        ≠ Phase.matching := hph
    have hnb2 : ¬ (i < 0 ∨
        ((({ gs with selectedPlates := gs.selectedPlates ++ [i] } : GameState).plates.length : Int)
          ≤ i)) := hnb
    have hmem2 : i ∈ ({ gs with selectedPlates := gs.selectedPlates ++ [i] } : GameState).selectedPlates := by
      simp
    have herase : (gs.selectedPlates ++ [i]).erase i = gs.selectedPlates := by
      rw [List.erase_append_right _ hmem, List.erase_cons_head, List.append_nil]
    unfold SelectPlate
    rw [if_neg hph2, if_neg hnb2, if_pos hmem2]
    show (true, ({ gs with selectedPlates := (gs.selectedPlates ++ [i]).erase i } : GameState))
      = (true, gs)
    rw [herase]

/-- Witness for C7 at a concrete matching-phase state with plate 2 selected:
toggling index 2 removes it, index 0 is appended and toggles back. -/
theorem SelectPlate_toggle_witness :
    SelectPlate { NewGameState 4 with phase := Phase.matching, selectedPlates := [2] } 2 =
      (true, { NewGameState 4 with phase := Phase.matching, selectedPlates := ([2] : List Int).erase 2 }) ∧
    SelectPlate { NewGameState 4 with phase := Phase.matching, selectedPlates := [2] } 0 =
      (true, { NewGameState 4 with phase := Phase.matching, selectedPlates := [2] ++ [0] }) :=
  ⟨(SelectPlate_toggle { NewGameState 4 with phase := Phase.matching, selectedPlates := [2] } 2
      rfl (by decide) (by decide)).1 (by decide),
   (SelectPlate_toggle { NewGameState 4 with phase := Phase.matching, selectedPlates := [2] } 0
      rfl (by decide) (by decide)).2.1 (by decide) (by decide)⟩

/-- Claim C6 counterexample: at the odd plate count 5, `NewRoom` rounds the
count up to 6, so `maxRound` is `max 1 (6/2 - 1) = 2`, not the claimed
`max 1 (5/2 - 1) = 1` computed from the requested count. -/
theorem NewRoom_maxRound_formula_fails_at_5 :
    ¬ ((NewRoom 5).state.maxRound = max 1 ((5 : Int) / 2 - 1)) := by
  decide

/-- Claim C6 (amended): for every plate count p in 4..20, `NewRoom p` yields
a `plateCount` that is even and within 4..20, with `maxRound` equal to
`max 1 (plateCount/2 - 1)` computed from the room's resulting (rounded-up)
plate count; for even p this coincides with `max 1 (p/2 - 1)`. -/
theorem NewRoom_plateCount_maxRound (p : Int) (h4 : 4 ≤ p) (h20 : p ≤ 20) :
    (NewRoom p).plateCount % 2 = 0 ∧
    4 ≤ (NewRoom p).plateCount ∧ (NewRoom p).plateCount ≤ 20 ∧
    (NewRoom p).state.maxRound = max 1 ((NewRoom p).plateCount / 2 - 1) ∧
    (p % 2 = 0 → (NewRoom p).state.maxRound = max 1 (p / 2 - 1)) := by
  interval_cases p <;> decide

/-- Witness for C6's amended theorem at the smallest legal plate count. -/
theorem NewRoom_plateCount_maxRound_witness :
    (NewRoom 4).plateCount % 2 = 0 ∧
    4 ≤ (NewRoom 4).plateCount ∧ (NewRoom 4).plateCount ≤ 20 ∧
    (NewRoom 4).state.maxRound = max 1 ((NewRoom 4).plateCount / 2 - 1) ∧
    ((4 : Int) % 2 = 0 → (NewRoom 4).state.maxRound = max 1 ((4 : Int) / 2 - 1)) :=
  NewRoom_plateCount_maxRound 4 (by decide) (by decide)

/-- Helper: the in-queue scan finds nothing when no entry carries the
arriving player's session id. -/
theorem updateQueueEntry_none (player : Player) (conn : Option Nat) :
    ∀ q : List QueueEntry, (∀ e ∈ q, e.player.sessionId ≠ player.sessionId) →
      updateQueueEntry player conn q = none := by
  intro q
  induction q with
  | nil => intro _; rfl
  | cons e es ih =>
    intro h
    unfold updateQueueEntry
    rw [if_neg (h e (List.mem_cons_self e es)),
      ih fun e2 he2 => h e2 (List.mem_cons_of_mem e he2)]

/-- Helper: the in-queue scan stops at the first entry carrying the arriving
player's session id, updates it in place and reports its 1-indexed position. -/
theorem updateQueueEntry_first (player : Player) (conn : Option Nat) :
    ∀ (pre : List QueueEntry) (e : QueueEntry) (post : List QueueEntry),
      (∀ e2 ∈ pre, e2.player.sessionId ≠ player.sessionId) →
      e.player.sessionId = player.sessionId →
      updateQueueEntry player conn (pre ++ e :: post) =
        some (pre.length + 1, pre ++ { e with conn := conn, player := player } :: post) := by
  intro pre
  induction pre with
  | nil =>
    intro e post _ he
    rw [List.nil_append]
    unfold updateQueueEntry
    rw [if_pos he]
    rfl
  | cons a as ih =>
    intro e post hpre he
    have ha : a.player.sessionId ≠ player.sessionId := hpre a (List.mem_cons_self a as)
    rw [List.cons_append]
    unfold updateQueueEntry
    rw [if_neg ha, ih e post (fun e2 h2 => hpre e2 (List.mem_cons_of_mem a h2)) he]
    rfl

/-- Claim C4: `JoinQueue` behaves by exactly three cases.  A queued session
id leads to an in-place update of that entry's connection and player
reference and returns its 1-indexed position with no room and no pairing;
otherwise a non-empty queue leads to the head being popped and paired with
the new arrival through the injected callback, returning position 0 with the
constructed room; otherwise a fresh entry is appended and its 1-indexed
position returned with no room. -/
theorem JoinQueue_three_cases (mm : Matchmaker) (player : Player) (conn : Option Nat)
    (plateCount now : Int) :
    (∀ pre e post, mm.queue = pre ++ e :: post →
      (∀ e2 ∈ pre, e2.player.sessionId ≠ player.sessionId) →
      e.player.sessionId = player.sessionId →
      JoinQueue mm player conn plateCount now =
        ((Int.ofNat (pre.length + 1), none),
         { mm with queue := pre ++ { e with conn := conn, player := player } :: post })) ∧
    (∀ opponent rest f,
      (∀ e2 ∈ mm.queue, e2.player.sessionId ≠ player.sessionId) →
      mm.queue = opponent :: rest → mm.onMatched = some f →
      JoinQueue mm player conn plateCount now =
        ((0, some (f opponent
            { player := player, conn := conn, joinedAt := now,
              plateCount := ClampPlateCount plateCount })),
         { mm with queue := rest })) ∧
    ((∀ e2 ∈ mm.queue, e2.player.sessionId ≠ player.sessionId) → mm.queue = [] →
      JoinQueue mm player conn plateCount now =
        ((1, none),
         { mm with queue := [{ player := player, conn := conn, joinedAt := now,
                               plateCount := ClampPlateCount plateCount }] })) := by
  refine ⟨?_, ?_, ?_⟩
  · intro pre e post hq hpre he
    unfold JoinQueue
    rw [hq, updateQueueEntry_first player conn pre e post hpre he]
  · intro opponent rest f hall hq hf
    unfold JoinQueue
    rw [updateQueueEntry_none player conn mm.queue hall, hq, hf]
  · intro hall hq
    unfold JoinQueue
    rw [hq]
    rfl

/-- Witness for C4 on the pairing case: a second distinct session joining a
one-entry queue pops the head, invokes the callback and reports position 0
with the constructed room, leaving the queue empty. -/
theorem JoinQueue_three_cases_witness :
    JoinQueue mmC4 playerC4 none 20 0 =
      ((0, some (pairRoomC4 entryC4
          { player := playerC4, conn := none, joinedAt := 0,
            plateCount := ClampPlateCount 20 })),
       { mmC4 with queue := [] }) :=
  (JoinQueue_three_cases mmC4 playerC4 none 20 0).2.1 entryC4 [] pairRoomC4
    (by decide) rfl rfl
